import Mathlib

set_option maxHeartbeats 1000000
set_option linter.unusedVariables false

/- Shallow embedding of the AgriCare pipeline: src/server.js (express routes,
   multer upload constraints, Gemini response handling),
   src/netlify/functions/save-report.js (Netlify save-report handler) and
   src/public/script.js (client-side PDF layout).  JavaScript values are
   modelled by the inductive type Js, JSON.parse by an executable recursive
   descent parser, and each route handler by a pure function from its inputs
   (request fields, external-model text, storage outcomes) to the produced
   response together with the storage writes it performs. -/

/-- JavaScript runtime values as produced by JSON.parse, plus undefined (the
result of reading an absent property).  Numbers are modelled as exact
rationals. -/
inductive Js where
  | undefined : Js
  | null : Js
  | bool : Bool → Js
  | num : ℚ → Js
  | str : String → Js
  | arr : List Js → Js
  | obj : List (String × Js) → Js

/-- Does a JavaScript value satisfy typeof v === "string"? -/
def Js.isString : Js → Bool
  | .str _ => true
  | _ => false

/-- Does a JavaScript value satisfy Array.isArray? -/
def Js.isArray : Js → Bool
  | .arr _ => true
  | _ => false

/-- JavaScript truthiness of a value. -/
def Js.truthy : Js → Bool
  | .undefined => false
  | .null => false
  | .bool b => b
  | .num q => !(q == 0)
  | .str s => !(s == "")
  | .arr _ => true
  | .obj _ => true

/-- Truthiness of a possibly absent value (absent request fields are
undefined, hence falsy). -/
def jsTruthyOpt : Option Js → Bool
  | none => false
  | some v => Js.truthy v

/-- Model of the TypeError thrown by JavaScript when a property of null (or
undefined) is read. -/
def nullFieldErr : String := "TypeError: cannot read properties of null"

/-- JavaScript property read v[key]: throws on null/undefined, yields the
last binding of the key on objects (later duplicate keys win, as in
JSON.parse), and undefined otherwise. -/
def Js.getField : Js → String → Except String Js
  | .null, _ => .error nullFieldErr
  | .undefined, _ => .error nullFieldErr
  | .obj fs, key => .ok ((fs.reverse.lookup key).getD .undefined)
  | _, _ => .ok .undefined

/-- Total version of the property read, valid for receivers other than
null/undefined. -/
def Js.fieldD : Js → String → Js
  | .obj fs, key => (fs.reverse.lookup key).getD .undefined
  | _, _ => .undefined

/-- The normalized analysis record produced by analyzeWithGemini in
src/server.js.  The code only checks Array.isArray on medicines/causes, so
their elements are arbitrary parsed values, not necessarily strings. -/
structure AnalysisResult where
  disease : String
  medicines : List Js
  description : String
  causes : List Js

/-- The "Basic validation and normalization" step of analyzeWithGemini
(src/server.js lines 104-112), including the JavaScript evaluation order:
each field read throws if the parsed value is null. -/
def normalizeAnalysis (parsed : Js) : Except String AnalysisResult := do
  let d ← parsed.getField "disease"
  let m ← parsed.getField "medicines"
  let de ← parsed.getField "description"
  let c ← parsed.getField "causes"
  Except.ok
    { disease := match d with | .str s => s | _ => "Unknown"
      medicines := match m with | .arr xs => xs | _ => []
      description := match de with | .str s => s | _ => ""
      causes := match c with | .arr xs => xs | _ => [] }

/-- Modelled from the spec (amended claim C1): the normalization described
field by field — strings kept for disease/description with defaults
"Unknown" and "", arrays kept as-is for medicines/causes with default [].
Compared against the code's normalizeAnalysis. -/
def normalizeSpec (parsed : Js) : AnalysisResult :=
  { disease := match parsed.fieldD "disease" with | .str s => s | _ => "Unknown"
    medicines := match parsed.fieldD "medicines" with | .arr xs => xs | _ => []
    description := match parsed.fieldD "description" with | .str s => s | _ => ""
    causes := match parsed.fieldD "causes" with | .arr xs => xs | _ => [] }

/-- JSON whitespace accepted by JSON.parse between tokens. -/
def isJsonWsChar (c : Char) : Bool :=
  c == ' ' || c == '\t' || c == '\n' || c == '\r'

/-- Skip JSON whitespace. -/
def skipWs : List Char → List Char
  | [] => []
  | c :: rest => if isJsonWsChar c then skipWs rest else c :: rest

/-- Value of a hexadecimal digit, for string escapes. -/
def hexVal (c : Char) : Option Nat :=
  if c.isDigit then some (c.toNat - '0'.toNat)
  else if 'a' ≤ c ∧ c ≤ 'f' then some (c.toNat - 'a'.toNat + 10)
  else if 'A' ≤ c ∧ c ≤ 'F' then some (c.toNat - 'A'.toNat + 10)
  else none

/-- Single-character JSON string escapes. -/
def escChar (e : Char) : Option Char :=
  if e = '"' then some '"'
  else if e = '\\' then some '\\'
  else if e = '/' then some '/'
  else if e = 'b' then some '\x08'
  else if e = 'f' then some '\x0c'
  else if e = 'n' then some '\n'
  else if e = 'r' then some '\r'
  else if e = 't' then some '\t'
  else none

/-- Body of a JSON string literal, after the opening quote: returns the
decoded characters and the input remaining after the closing quote.
Unescaped control characters are rejected, as in JSON.parse.  A \u escape
is decoded as a single code unit (surrogate pairing is not modelled; no
input in this development uses it). -/
def parseStringBody : List Char → Option (List Char × List Char)
  | [] => none
  | c :: rest =>
    if c = '"' then some ([], rest)
    else if c = '\\' then
      match rest with
      | 'u' :: h1 :: h2 :: h3 :: h4 :: rest2 =>
        (match hexVal h1, hexVal h2, hexVal h3, hexVal h4 with
         | some a, some b, some c2, some d =>
           (parseStringBody rest2).map
             (fun p => (Char.ofNat (((a * 16 + b) * 16 + c2) * 16 + d) :: p.1, p.2))
         | _, _, _, _ => none)
      | e :: rest2 =>
        (match escChar e with
         | some ch => (parseStringBody rest2).map (fun p => (ch :: p.1, p.2))
         | none => none)
      | [] => none
    else if c.toNat < 32 then none
    else (parseStringBody rest).map (fun p => (c :: p.1, p.2))

/-- Decimal digits to a natural number. -/
def digitsToNat (ds : List Char) : Nat :=
  ds.foldl (fun a c => a * 10 + (c.toNat - '0'.toNat)) 0

/-- Take a nonempty run of decimal digits. -/
def parseDigits (cs : List Char) : Option (List Char × List Char) :=
  let ds := cs.takeWhile Char.isDigit
  if ds.isEmpty then none else some (ds, cs.drop ds.length)

/-- Kernel-reducible power of ten over the rationals. -/
def pow10 : Nat → ℚ
  | 0 => 1
  | n + 1 => 10 * pow10 n

/-- Optional exponent part of a JSON number, applied to the mantissa. -/
def withExp (m : ℚ) (cs : List Char) : Option (ℚ × List Char) :=
  match cs with
  | [] => some (m, [])
  | c :: rest =>
    if c = 'e' ∨ c = 'E' then
      match rest with
      | '+' :: rr => (parseDigits rr).map (fun p => (m * pow10 (digitsToNat p.1), p.2))
      | '-' :: rr => (parseDigits rr).map (fun p => (m / pow10 (digitsToNat p.1), p.2))
      | _ => (parseDigits rest).map (fun p => (m * pow10 (digitsToNat p.1), p.2))
    else some (m, c :: rest)

/-- JSON number grammar: optional minus, integer part without leading
zeros, optional fraction, optional exponent. -/
def parseNumber (cs : List Char) : Option (ℚ × List Char) :=
  let sgnSplit : ℚ × List Char := match cs with | '-' :: r => (-1, r) | _ => (1, cs)
  match parseDigits sgnSplit.2 with
  | none => none
  | some (ds, r1) =>
    if 1 < ds.length ∧ ds.head? = some '0' then none
    else
      match r1 with
      | '.' :: r2 =>
        (match parseDigits r2 with
         | none => none
         | some (fs, r3) =>
           withExp (sgnSplit.1 * ((digitsToNat ds : ℚ) + (digitsToNat fs : ℚ) / pow10 fs.length)) r3)
      | _ => withExp (sgnSplit.1 * (digitsToNat ds : ℚ)) r1

mutual

/-- Recursive descent JSON value parser (fuelled model of JSON.parse). -/
def parseJsValue : Nat → List Char → Option (Js × List Char)
  | 0, _ => none
  | fuel + 1, cs =>
    match cs with
    | [] => none
    | c :: rest =>
      if c = 'n' then
        if rest.take 3 = ['u', 'l', 'l'] then some (Js.null, rest.drop 3) else none
      else if c = 't' then
        if rest.take 3 = ['r', 'u', 'e'] then some (Js.bool true, rest.drop 3) else none
      else if c = 'f' then
        if rest.take 4 = ['a', 'l', 's', 'e'] then some (Js.bool false, rest.drop 4) else none
      else if c = '"' then
        (parseStringBody rest).map (fun p => (Js.str (String.mk p.1), p.2))
      else if c = '[' then
        (match skipWs rest with
         | ']' :: r2 => some (Js.arr [], r2)
         | cs2 => (parseElems fuel cs2).map (fun p => (Js.arr p.1, p.2)))
      else if c = '\x7b' then
        (match skipWs rest with
         | '\x7d' :: r2 => some (Js.obj [], r2)
         | cs2 => (parseMembers fuel cs2).map (fun p => (Js.obj p.1, p.2)))
      else
        (parseNumber (c :: rest)).map (fun p => (Js.num p.1, p.2))

/-- Comma-separated array elements, up to and including the closing
bracket. -/
def parseElems : Nat → List Char → Option (List Js × List Char)
  | 0, _ => none
  | fuel + 1, cs =>
    match parseJsValue fuel (skipWs cs) with
    | none => none
    | some (v, r1) =>
      match skipWs r1 with
      | ',' :: r2 => (parseElems fuel r2).map (fun p => (v :: p.1, p.2))
      | ']' :: r2 => some ([v], r2)
      | _ => none

/-- Comma-separated object members, up to and including the closing
brace. -/
def parseMembers : Nat → List Char → Option (List (String × Js) × List Char)
  | 0, _ => none
  | fuel + 1, cs =>
    match skipWs cs with
    | '"' :: r1 =>
      (match parseStringBody r1 with
       | none => none
       | some (kcs, r2) =>
         match skipWs r2 with
         | ':' :: r3 =>
           (match parseJsValue fuel (skipWs r3) with
            | none => none
            | some (v, r4) =>
              match skipWs r4 with
              | ',' :: r5 => (parseMembers fuel r5).map (fun p => ((String.mk kcs, v) :: p.1, p.2))
              | '\x7d' :: r5 => some ([(String.mk kcs, v)], r5)
              | _ => none)
         | _ => none)
    | _ => none

end

/-- Model of JSON.parse on a character list: a single JSON value possibly
surrounded by whitespace; none models a thrown SyntaxError. -/
def jsonParse (cs : List Char) : Option Js :=
  match parseJsValue (cs.length + 1) (skipWs cs) with
  | none => none
  | some (v, rest) => if skipWs rest = [] then some v else none

/-- Whitespace removed by JavaScript String.prototype.trim (the characters
relevant here; also no-break space and the BOM). -/
def isJsWs (c : Char) : Bool :=
  c == ' ' || c == '\t' || c == '\n' || c == '\r' || c == '\x0b' || c == '\x0c' ||
    c.toNat == 160 || c.toNat == 65279

/-- Model of String.prototype.trim on a character list. -/
def trimChars (cs : List Char) : List Char :=
  ((cs.dropWhile isJsWs).reverse.dropWhile isJsWs).reverse

/-- Lazy search for the closing fence: the capture group runs up to the
first occurrence of newline followed by three backticks, matching the
non-greedy capture of the code-fence pattern in src/server.js line 92. -/
def splitAtClose : List Char → Option (List Char)
  | [] => none
  | c :: rest =>
    if c = '\n' ∧ rest.take 3 = ['\x60', '\x60', '\x60'] then some []
    else (splitAtClose rest).map (List.cons c)

/-- Does a five-character block read "json" (case-insensitively, from the
i flag of the pattern) followed by a newline? -/
def isJsonHeader (l : List Char) : Bool :=
  l.map Char.toLower == ['j', 's', 'o', 'n', '\n']

/-- After the three opening backticks: try the variant of the fence header
with the json language tag (the greedy first alternative of the optional
group). -/
def tryJsonHeader (rest : List Char) : Option (List Char) :=
  if isJsonHeader (rest.take 5) then splitAtClose (rest.drop 5) else none

/-- After the three opening backticks: try the bare fence header (the empty
alternative of the optional group). -/
def tryPlainHeader (rest : List Char) : Option (List Char) :=
  if rest.take 1 = ['\n'] then splitAtClose (rest.drop 1) else none

/-- Attempt the whole code-fence pattern at the current position. -/
def fenceAt (cs : List Char) : Option (List Char) :=
  if cs.take 3 = ['\x60', '\x60', '\x60'] then
    tryJsonHeader (cs.drop 3) <|> tryPlainHeader (cs.drop 3)
  else none

/-- Leftmost match of the code-fence pattern, as String.prototype.match
finds it: try each start position in order. -/
def findFence : List Char → Option (List Char)
  | [] => none
  | c :: rest => fenceAt (c :: rest) <|> findFence rest

/-- The fence-stripping step of analyzeWithGemini (src/server.js lines
90-95): trim the model text, and if the code-fence pattern matches, keep
only the trimmed capture. -/
def stripFences (text : String) : List Char :=
  match findFence (trimChars text.data) with
  | some inner => trimChars inner
  | none => trimChars text.data

/-- The parse-failure message thrown in src/server.js line 101. -/
def parseErrMsg : String := "Failed to parse AI response as JSON"

/-- The missing-credential message thrown in src/server.js lines 69-71. -/
def geminiKeyErr : String := "Gemini API key not configured. Set GEMINI_API_KEY in .env"

/-- Extraction plus parsing plus normalization of a model response text
(src/server.js lines 90-113), with the model call itself abstracted into
the response text. -/
def parseModelResponse (text : String) : Except String AnalysisResult :=
  match jsonParse (stripFences text) with
  | none => Except.error parseErrMsg
  | some parsed => normalizeAnalysis parsed

/-- analyzeWithGemini (src/server.js lines 66-113): fails when no API key
is configured, otherwise processes the model response text. -/
def analyzeWithGemini (hasKey : Bool) (modelText : String) : Except String AnalysisResult :=
  if hasKey then parseModelResponse modelText else Except.error geminiKeyErr

/-- The multer MIME allow-set (src/server.js line 32). -/
def allowedMimeTypes : List String := ["image/jpeg", "image/jpg", "image/png"]

/-- The multer fileFilter (src/server.js lines 42-45): true accepts the
file, false models cb(new Error(...)). -/
def fileFilter (mimetype : String) : Bool :=
  allowedMimeTypes.contains mimetype

/-- The error message produced by the fileFilter rejection. -/
def badMimeErr : String := "Only JPG, JPEG, PNG are allowed"

/-- The multer fileSize limit in bytes (src/server.js line 49). -/
def maxFileSize : Nat := 10 * 1024 * 1024

/-- Is a character in the safe class of the sanitizing replacements in
src/server.js lines 37 and 157 (the class is the complement of the
replaced one). -/
def isSafeChar (c : Char) : Bool :=
  c.isAlphanum || c == '_' || c == '.' || c == '-'

/-- The sanitizing replacement: every character outside the safe class
becomes an underscore. -/
def sanitize (s : String) : String :=
  String.mk (s.data.map (fun c => if isSafeChar c then c else '_'))

/-- Does every character of a string lie in the safe class? -/
def allSafeChars (s : String) : Bool :=
  s.data.all isSafeChar

/-- Model of path.extname on a sanitized name: the suffix from the last
dot, empty when there is no dot or the only dot starts the name. -/
def extname (s : String) : String :=
  let r := s.data.reverse
  let pre := r.takeWhile (fun c => c ≠ '.')
  if pre.length + 1 < r.length then String.mk ('.' :: pre.reverse) else ""

/-- The stored filename generated by the multer diskStorage callback
(src/server.js lines 34-40). -/
def storedFilename (originalname : String) (time : Nat) : String :=
  let safeOriginal := sanitize originalname
  let ext := if extname safeOriginal = "" then ".jpg" else extname safeOriginal
  "crop_" ++ Nat.repr time ++ ext

/-- The JSON response of the analyze route, with absent fields as none.
success models the success:true flag of the 2xx body. -/
structure AnalyzeResponse where
  status : Nat
  success : Bool
  imageFilename : Option String
  imageUrl : Option String
  analysis : Option AnalysisResult
  errorMsg : Option String

/-- Observable side effects of one analyze request: whether the external
model was invoked, whether the uploaded image was stored, and whether the
metadata record was written. -/
structure AnalyzeEvents where
  modelInvoked : Bool
  imageStored : Bool
  metaWritten : Bool

/-- The analyze pipeline: multer middleware (fileFilter, then the size
limit) followed by the POST /api/analyze handler (src/server.js lines
116-146).  file carries (mimetype, originalname, size) when a file part is
present; modelText is the external model's response text; metaWrite is the
outcome of the fs.writeFileSync of the metadata record, which the handler
performs inside its try block before sending the success response. -/
def analyzeEndpoint (hasKey : Bool) (file : Option (String × String × Nat)) (time : Nat)
    (modelText : String) (metaWrite : Except String Unit) : AnalyzeResponse × AnalyzeEvents :=
  match file with
  | none =>
    (⟨400, false, none, none, none, some "No image uploaded"⟩, ⟨false, false, false⟩)
  | some (mimetype, originalname, size) =>
    if fileFilter mimetype = false then
      (⟨500, false, none, none, none, some badMimeErr⟩, ⟨false, false, false⟩)
    else if maxFileSize < size then
      (⟨500, false, none, none, none, some "File too large"⟩, ⟨false, false, false⟩)
    else
      let filename := storedFilename originalname time
      match analyzeWithGemini hasKey modelText with
      | .error msg =>
        (⟨500, false, none, none, none, some msg⟩, ⟨hasKey, true, false⟩)
      | .ok analysis =>
        match metaWrite with
        | .error msg =>
          (⟨500, false, none, none, none, some msg⟩, ⟨hasKey, true, false⟩)
        | .ok _ =>
          (⟨200, true, some filename, some ("/uploads/" ++ filename), some analysis, none⟩,
           ⟨hasKey, true, true⟩)

/-- The PDF data-URL marker checked by both save-report handlers. -/
def pdfMarker : String := "data:application/pdf;base64,"

/-- Model of String.prototype.startsWith, kernel-reducible. -/
def strStartsWith (s pre : String) : Bool :=
  s.data.take pre.data.length == pre.data

/-- The effective base name: the caller's baseName when truthy (a
non-empty string), otherwise the generated analysis_ plus millisecond
timestamp, as in both save-report handlers. -/
def effectiveBase (baseName : Option String) (time : Nat) : String :=
  match baseName with
  | some b => if b = "" then "analysis_" ++ Nat.repr time else b
  | none => "analysis_" ++ Nat.repr time

/-- The JSON response of a save-report operation. -/
structure SaveResponse where
  status : Nat
  success : Bool
  errorMsg : Option String
  reportUrl : Option String

/-- Storage writes of a save-report operation: the key the PDF document was
persisted under, and the key of the metadata record, when written. -/
structure SaveEvents where
  pdfKey : Option String
  metaKey : Option String

/-- POST /api/save-report (src/server.js lines 148-177): validate the PDF
data URL, sanitize the base name, write the PDF under reports/ and, when
the analysis field is truthy, the metadata record under reports/meta/. -/
def saveReportRoute (pdfDataUrl baseName : Option String) (analysis : Option Js)
    (imageFilename : Option String) (time : Nat) : SaveResponse × SaveEvents :=
  match pdfDataUrl with
  | none => (⟨400, false, some "Invalid or missing PDF data", none⟩, ⟨none, none⟩)
  | some u =>
    if strStartsWith u pdfMarker then
      let safeBase := sanitize (effectiveBase baseName time)
      (⟨200, true, none, some ("/reports/" ++ safeBase ++ ".pdf")⟩,
       ⟨some ("reports/" ++ safeBase ++ ".pdf"),
        if jsTruthyOpt analysis then some ("reports/meta/" ++ safeBase ++ ".json") else none⟩)
    else (⟨400, false, some "Invalid or missing PDF data", none⟩, ⟨none, none⟩)

/-- The Netlify save-report handler (src/netlify/functions/save-report.js):
same validation and key shape, but both blob writes sit in one try block
whose failure is only logged; the 200 success response is returned
regardless.  pdfBlobOk and metaBlobOk are the outcomes of the two
createBlob calls; a failing PDF write also skips the metadata write. -/
def netlifySaveReport (httpMethod : String) (pdfDataUrl baseName : Option String)
    (analysis : Option Js) (imageFilename : Option String)
    (pdfBlobOk metaBlobOk : Bool) (time : Nat) : SaveResponse × SaveEvents :=
  if httpMethod ≠ "POST" then (⟨405, false, some "Method Not Allowed", none⟩, ⟨none, none⟩)
  else
    match pdfDataUrl with
    | none => (⟨400, false, some "Invalid or missing PDF data", none⟩, ⟨none, none⟩)
    | some u =>
      if strStartsWith u pdfMarker then
        let safeBase := sanitize (effectiveBase baseName time)
        let pdfPath := "reports/" ++ safeBase ++ ".pdf"
        let ev : SaveEvents :=
          if pdfBlobOk then
            ⟨some pdfPath,
             if jsTruthyOpt analysis && metaBlobOk then some ("meta/" ++ safeBase ++ ".json")
             else none⟩
          else ⟨none, none⟩
        (⟨200, true, none, some ("/.netlify/blobs/" ++ pdfPath)⟩, ev)
      else (⟨400, false, some "Invalid or missing PDF data", none⟩, ⟨none, none⟩)

/-- Left and right page margin of the report layout
(src/public/script.js line 172). -/
def pageMargin : ℚ := 40

/-- Maximum rendered image width: 555 minus the margin
(src/public/script.js line 191). -/
def imgMaxW : ℚ := 555 - pageMargin

/-- Maximum rendered image height (src/public/script.js line 192). -/
def imgMaxH : ℚ := 260

/-- The scale factor of generateAndSavePdf (src/public/script.js line
195), in exact arithmetic. -/
def imgScale (w h : ℚ) : ℚ := min (imgMaxW / w) (imgMaxH / h)

/-- Rendered image width: the source width times the common scale. -/
def renderedW (w h : ℚ) : ℚ := w * imgScale w h

/-- Rendered image height: the source height times the common scale. -/
def renderedH (w h : ℚ) : ℚ := h * imgScale w h

lemma getField_eq_fieldD (v : Js) (key : String) (hn : v ≠ Js.null) (hu : v ≠ Js.undefined) :
    v.getField key = Except.ok (v.fieldD key) := by
  cases v with
  | null => exact absurd rfl hn
  | undefined => exact absurd rfl hu
  | bool b => rfl
  | num q => rfl
  | str s => rfl
  | arr xs => rfl
  | obj fs => rfl

/-- Claim C1 (amended): for every parsed JSON value other than null, the
normalization step of analyzeWithGemini never throws and yields exactly
the field-by-field normalization normalizeSpec: disease and description
are strings, defaulted to "Unknown" and "" when the parsed fields are not
strings, and medicines and causes are the parsed arrays, whose elements
are arbitrary parsed values, defaulted to [] when the parsed fields are
not arrays.  (The original claim fails when the parse result is null, and
its promise that medicines and causes are sequences of strings fails for
arrays with non-string elements.) -/
theorem normalize_total_nonnull (j : Js) (hn : j ≠ Js.null) (hu : j ≠ Js.undefined) :
    normalizeAnalysis j = Except.ok (normalizeSpec j) := by
  rw [normalizeAnalysis, getField_eq_fieldD j "disease" hn hu,
    getField_eq_fieldD j "medicines" hn hu, getField_eq_fieldD j "description" hn hu,
    getField_eq_fieldD j "causes" hn hu]
  rfl

/-- Witness for claim C1: the amended theorem applied to the empty object. -/
theorem normalize_total_nonnull_witness :
    normalizeAnalysis (Js.obj []) = Except.ok (normalizeSpec (Js.obj [])) :=
  normalize_total_nonnull (Js.obj []) (fun h => Js.noConfusion h) (fun h => Js.noConfusion h)

/-- Counterexample for claim C1 as stated: a parsed medicines array whose
element is the number 1 is kept as-is, so the normalized medicines are not
a sequence of strings; and a null parse result makes the normalization
throw rather than produce defaults. -/
theorem normalize_claim_counterexample :
    normalizeAnalysis (Js.obj [("medicines", Js.arr [Js.num 1])]) =
      Except.ok { disease := "Unknown", medicines := [Js.num 1], description := "", causes := [] } ∧
    Js.isString (Js.num 1) = false ∧
    normalizeAnalysis Js.null = Except.error nullFieldErr :=
  ⟨rfl, rfl, rfl⟩

/-- Claim C2 (amended): in the local server, the metadata write of the
analyze route sits inside the handler's try block, so when the model call
and normalization succeed but the write fails, the caller receives a 500
error response carrying the write error's message instead of the success
response; only when the write succeeds does the caller receive the success
response with the image filename and the normalized result. -/
theorem meta_write_failure_fails_request (hasKey : Bool) (mimetype originalname : String)
    (size time : Nat) (modelText msg : String) (a : AnalysisResult)
    (hf : fileFilter mimetype = true) (hs : size ≤ maxFileSize)
    (ha : analyzeWithGemini hasKey modelText = Except.ok a) :
    (analyzeEndpoint hasKey (some (mimetype, originalname, size)) time modelText
        (Except.error msg)).1.success = false ∧
    (analyzeEndpoint hasKey (some (mimetype, originalname, size)) time modelText
        (Except.error msg)).1.status = 500 ∧
    (analyzeEndpoint hasKey (some (mimetype, originalname, size)) time modelText
        (Except.error msg)).1.errorMsg = some msg ∧
    (analyzeEndpoint hasKey (some (mimetype, originalname, size)) time modelText
        (Except.error msg)).2.metaWritten = false ∧
    (analyzeEndpoint hasKey (some (mimetype, originalname, size)) time modelText
        (Except.ok ())).1.success = true ∧
    (analyzeEndpoint hasKey (some (mimetype, originalname, size)) time modelText
        (Except.ok ())).1.imageFilename = some (storedFilename originalname time) ∧
    (analyzeEndpoint hasKey (some (mimetype, originalname, size)) time modelText
        (Except.ok ())).1.analysis = some a := by
  simp [analyzeEndpoint, hf, ha, show ¬ maxFileSize < size by omega]

/-- Witness for claim C2: a PNG upload whose analysis succeeds on the model
text of an empty JSON object; the failing disk write yields the 500
response, the succeeding one the success response. -/
theorem meta_write_failure_fails_request_witness :
    (analyzeEndpoint true (some ("image/png", "leaf.png", 50000)) 7 "\x7b\x7d"
        (Except.error "disk full")).1.success = false ∧
    (analyzeEndpoint true (some ("image/png", "leaf.png", 50000)) 7 "\x7b\x7d"
        (Except.error "disk full")).1.status = 500 ∧
    (analyzeEndpoint true (some ("image/png", "leaf.png", 50000)) 7 "\x7b\x7d"
        (Except.error "disk full")).1.errorMsg = some "disk full" ∧
    (analyzeEndpoint true (some ("image/png", "leaf.png", 50000)) 7 "\x7b\x7d"
        (Except.error "disk full")).2.metaWritten = false ∧
    (analyzeEndpoint true (some ("image/png", "leaf.png", 50000)) 7 "\x7b\x7d"
        (Except.ok ())).1.success = true ∧
    (analyzeEndpoint true (some ("image/png", "leaf.png", 50000)) 7 "\x7b\x7d"
        (Except.ok ())).1.imageFilename = some (storedFilename "leaf.png" 7) ∧
    (analyzeEndpoint true (some ("image/png", "leaf.png", 50000)) 7 "\x7b\x7d"
        (Except.ok ())).1.analysis =
      some { disease := "Unknown", medicines := [], description := "", causes := [] } :=
  meta_write_failure_fails_request true "image/png" "leaf.png" 50000 7 "\x7b\x7d" "disk full"
    { disease := "Unknown", medicines := [], description := "", causes := [] }
    rfl (by decide) rfl

/-- Counterexample for claim C2 as stated: with a successfully analyzed
upload, a failing metadata write produces a 500 error response, not the
success response the claim promises. -/
theorem meta_write_failure_cex :
    analyzeWithGemini true "\x7b\x7d" =
      Except.ok { disease := "Unknown", medicines := [], description := "", causes := [] } ∧
    (analyzeEndpoint true (some ("image/jpeg", "a.jpg", 1000)) 3 "\x7b\x7d"
        (Except.error "write failed")).1.success = false ∧
    (analyzeEndpoint true (some ("image/jpeg", "a.jpg", 1000)) 3 "\x7b\x7d"
        (Except.error "write failed")).1.status = 500 :=
  ⟨rfl, rfl, rfl⟩

lemma strData_append (s t : String) : (s ++ t).data = s.data ++ t.data := by
  cases s
  cases t
  rfl

lemma mem_of_mem_trimChars {c : Char} {l : List Char} (h : c ∈ trimChars l) : c ∈ l := by
  unfold trimChars at h
  rw [List.mem_reverse] at h
  have h2 := (List.dropWhile_sublist (l := (l.dropWhile isJsWs).reverse) (p := isJsWs)).subset h
  rw [List.mem_reverse] at h2
  exact (List.dropWhile_sublist (l := l) (p := isJsWs)).subset h2

lemma trimChars_cons_concat (a b : Char) (mid : List Char)
    (ha : isJsWs a = false) (hb : isJsWs b = false) :
    trimChars (a :: (mid ++ [b])) = a :: (mid ++ [b]) := by
  unfold trimChars
  have h1 : List.dropWhile isJsWs (a :: (mid ++ [b])) = a :: (mid ++ [b]) := by
    rw [List.dropWhile_cons, ha]
    simp
  have h2 : (a :: (mid ++ [b])).reverse = b :: (mid.reverse ++ [a]) := by simp
  have h3 : List.dropWhile isJsWs (b :: (mid.reverse ++ [a])) = b :: (mid.reverse ++ [a]) := by
    rw [List.dropWhile_cons, hb]
    simp
  rw [h1, h2, h3, ← h2, List.reverse_reverse]

lemma fenceAt_eq_none {l : List Char} (h : '\x60' ∉ l) : fenceAt l = none := by
  unfold fenceAt
  rw [if_neg]
  intro h3
  match l, h3 with
  | c :: rest, h3 =>
    rw [List.take_succ_cons] at h3
    have : c = '\x60' := (List.cons.injEq _ _ _ _).mp h3 |>.1
    exact h (this ▸ List.mem_cons_self c rest)

lemma findFence_eq_none {l : List Char} (h : '\x60' ∉ l) : findFence l = none := by
  induction l with
  | nil => rfl
  | cons c rest ih =>
    have hc : fenceAt (c :: rest) = none := fenceAt_eq_none h
    have hr : '\x60' ∉ rest := fun hm => h (List.mem_cons_of_mem c hm)
    simp [findFence, hc, ih hr]

lemma splitAtClose_append {t : List Char} (h : '\x60' ∉ t) :
    splitAtClose (t ++ ['\n', '\x60', '\x60', '\x60']) = some t := by
  induction t with
  | nil => rfl
  | cons a as ih =>
    have has : '\x60' ∉ as := fun hm => h (List.mem_cons_of_mem a hm)
    rw [List.cons_append, splitAtClose]
    rw [if_neg]
    · rw [ih has]
      rfl
    · rintro ⟨h1, h2⟩
      cases as with
      | nil => exact absurd h2 (by decide)
      | cons b bs =>
        rw [List.cons_append, List.take_succ_cons] at h2
        have hb : b = '\x60' := (List.cons.injEq _ _ _ _).mp h2 |>.1
        exact h (by simp [hb])

lemma isJsonHeader_newline (l : List Char) : isJsonHeader ('\n' :: l) = false := by
  unfold isJsonHeader
  rw [List.map_cons, beq_eq_false_iff_ne]
  intro h
  exact absurd ((List.cons.injEq _ _ _ _).mp h).1 (by decide)

lemma stripFences_raw (t : String) (hbt : '\x60' ∉ t.data) :
    stripFences t = trimChars t.data := by
  have h : findFence (trimChars t.data) = none :=
    findFence_eq_none (fun hm => hbt (mem_of_mem_trimChars hm))
  simp [stripFences, h]

lemma stripFences_wrapped (t tag : String)
    (htag : tag = "" ∨ tag.data.map Char.toLower = ['j', 's', 'o', 'n'])
    (hbt : '\x60' ∉ t.data) :
    stripFences ("```" ++ tag ++ "\n" ++ t ++ "\n```") = trimChars t.data := by
  have hw : ("```" ++ tag ++ "\n" ++ t ++ "\n```").data =
      '\x60' :: '\x60' :: '\x60' ::
        (tag.data ++ '\n' :: (t.data ++ ['\n', '\x60', '\x60', '\x60'])) := by
    simp [strData_append]
  have hsplit : splitAtClose (t.data ++ ['\n', '\x60', '\x60', '\x60']) = some t.data :=
    splitAtClose_append hbt
  have hfence : fenceAt ('\x60' :: '\x60' :: '\x60' ::
      (tag.data ++ '\n' :: (t.data ++ ['\n', '\x60', '\x60', '\x60']))) = some t.data := by
    unfold fenceAt
    rw [if_pos (by simp)]
    rw [show ('\x60' :: '\x60' :: '\x60' ::
      (tag.data ++ '\n' :: (t.data ++ ['\n', '\x60', '\x60', '\x60']))).drop 3 =
      tag.data ++ '\n' :: (t.data ++ ['\n', '\x60', '\x60', '\x60']) from rfl]
    rcases htag with h0 | h4
    · subst h0
      show (tryJsonHeader ('\n' :: (t.data ++ _)) <|> tryPlainHeader ('\n' :: (t.data ++ _))) = _
      unfold tryJsonHeader
      rw [List.take_succ_cons, isJsonHeader_newline, if_neg (by simp)]
      unfold tryPlainHeader
      rw [List.take_succ_cons, List.take_zero, if_pos rfl, List.drop_succ_cons,
        List.drop_zero, hsplit]
      rfl
    · have hlen : tag.data.length = 4 := by
        have := congrArg List.length h4
        simpa using this
      unfold tryJsonHeader
      rw [show (5 : Nat) = tag.data.length + 1 by rw [hlen]]
      rw [List.take_append 1, List.drop_append 1]
      rw [List.take_succ_cons, List.take_zero, List.drop_succ_cons, List.drop_zero, hsplit]
      rw [if_pos]
      · rfl
      · unfold isJsonHeader
        rw [List.map_append, h4]
        rfl
  have htrim : trimChars ('\x60' :: '\x60' :: '\x60' ::
      (tag.data ++ '\n' :: (t.data ++ ['\n', '\x60', '\x60', '\x60']))) =
      '\x60' :: '\x60' :: '\x60' ::
      (tag.data ++ '\n' :: (t.data ++ ['\n', '\x60', '\x60', '\x60'])) := by
    have hshape : '\x60' :: '\x60' :: '\x60' ::
        (tag.data ++ '\n' :: (t.data ++ ['\n', '\x60', '\x60', '\x60'])) =
        '\x60' :: (('\x60' :: '\x60' ::
          (tag.data ++ '\n' :: (t.data ++ ['\n', '\x60', '\x60']))) ++ ['\x60']) := by
      simp
    rw [hshape, trimChars_cons_concat _ _ _ (by decide) (by decide), ← hshape]
  have hfind : findFence ('\x60' :: '\x60' :: '\x60' ::
      (tag.data ++ '\n' :: (t.data ++ ['\n', '\x60', '\x60', '\x60']))) = some t.data := by
    rw [show findFence ('\x60' :: '\x60' :: '\x60' ::
        (tag.data ++ '\n' :: (t.data ++ ['\n', '\x60', '\x60', '\x60']))) =
        (fenceAt ('\x60' :: '\x60' :: '\x60' ::
          (tag.data ++ '\n' :: (t.data ++ ['\n', '\x60', '\x60', '\x60']))) <|>
         findFence ('\x60' :: '\x60' ::
          (tag.data ++ '\n' :: (t.data ++ ['\n', '\x60', '\x60', '\x60'])))) from rfl]
    rw [hfence]
    rfl
  unfold stripFences
  rw [hw, htrim, hfind]

/-- Claim C3 (amended): feeding the extraction-plus-normalization step a
JSON text containing no backtick, and feeding it the same text wrapped in a
triple-backtick fenced block with either no language tag or the tag json
in any letter case, yield the identical result.  (The original claim fails
for other language tags: the fence pattern of src/server.js line 92 only
recognizes an optional json tag, so a differently tagged block is not
stripped and the parse fails.) -/
theorem fence_strip_equiv (t tag : String)
    (htag : tag = "" ∨ tag.data.map Char.toLower = ['j', 's', 'o', 'n'])
    (hbt : '\x60' ∉ t.data) :
    parseModelResponse ("```" ++ tag ++ "\n" ++ t ++ "\n```") = parseModelResponse t := by
  unfold parseModelResponse
  rw [stripFences_wrapped t tag htag hbt, stripFences_raw t hbt]

/-- Witness for claim C3: the empty JSON object, fenced with the json tag,
normalizes identically to its raw form. -/
theorem fence_strip_equiv_witness :
    parseModelResponse ("```" ++ "json" ++ "\n" ++ "\x7b\x7d" ++ "\n```") =
      parseModelResponse "\x7b\x7d" :=
  fence_strip_equiv "\x7b\x7d" "json" (Or.inr (by decide)) (by decide)

/-- Counterexample for claim C3 as stated: the same JSON text raw and
wrapped in a fence tagged with the language name js give different
results — the raw text normalizes, the wrapped one fails to parse because
the fence pattern does not recognize the js tag. -/
theorem fence_strip_lang_tag_cex :
    parseModelResponse "\x7b\"disease\":\"Blight\"\x7d" =
      Except.ok { disease := "Blight", medicines := [], description := "", causes := [] } ∧
    parseModelResponse ("```js\n" ++ "\x7b\"disease\":\"Blight\"\x7d" ++ "\n```") =
      Except.error parseErrMsg :=
  ⟨rfl, rfl⟩

/-- Claim C4: for every accepted upload whose model response text does not
parse as JSON after fence stripping, the analyze request fails with the
AnalysisParseFailure message (no retry or repair exists in the code), the
response is a 500 error, and no analysis metadata record is written. -/
theorem parse_failure_fatal_no_write (mimetype originalname : String) (size time : Nat)
    (modelText : String) (metaWrite : Except String Unit)
    (hf : fileFilter mimetype = true) (hs : size ≤ maxFileSize)
    (hp : jsonParse (stripFences modelText) = none) :
    (analyzeEndpoint true (some (mimetype, originalname, size)) time modelText
        metaWrite).1.status = 500 ∧
    (analyzeEndpoint true (some (mimetype, originalname, size)) time modelText
        metaWrite).1.errorMsg = some parseErrMsg ∧
    (analyzeEndpoint true (some (mimetype, originalname, size)) time modelText
        metaWrite).1.success = false ∧
    (analyzeEndpoint true (some (mimetype, originalname, size)) time modelText
        metaWrite).2.metaWritten = false := by
  have ha : analyzeWithGemini true modelText = Except.error parseErrMsg := by
    simp [analyzeWithGemini, parseModelResponse, hp]
  simp [analyzeEndpoint, hf, ha, show ¬ maxFileSize < size by omega]

/-- Witness for claim C4: the model response text not json is rejected by
the JSON parse and the request fails without a metadata write. -/
theorem parse_failure_fatal_no_write_witness :
    (analyzeEndpoint true (some ("image/jpeg", "leaf.jpg", 51200)) 11 "not json"
        (Except.ok ())).1.status = 500 ∧
    (analyzeEndpoint true (some ("image/jpeg", "leaf.jpg", 51200)) 11 "not json"
        (Except.ok ())).1.errorMsg = some parseErrMsg ∧
    (analyzeEndpoint true (some ("image/jpeg", "leaf.jpg", 51200)) 11 "not json"
        (Except.ok ())).1.success = false ∧
    (analyzeEndpoint true (some ("image/jpeg", "leaf.jpg", 51200)) 11 "not json"
        (Except.ok ())).2.metaWritten = false :=
  parse_failure_fatal_no_write "image/jpeg" "leaf.jpg" 51200 11 "not json" (Except.ok ())
    rfl (by decide) rfl

/-- Claim C5: an uploaded file whose MIME type lies outside the allow-set
image/jpeg, image/jpg, image/png is rejected by the multer fileFilter with
the invalid-input message, and neither the image nor any metadata is
written to storage. -/
theorem bad_mime_rejected_no_write (hasKey : Bool) (mimetype originalname : String)
    (size time : Nat) (modelText : String) (metaWrite : Except String Unit)
    (hm : mimetype ∉ allowedMimeTypes) :
    (analyzeEndpoint hasKey (some (mimetype, originalname, size)) time modelText
        metaWrite).1.success = false ∧
    (analyzeEndpoint hasKey (some (mimetype, originalname, size)) time modelText
        metaWrite).1.errorMsg = some badMimeErr ∧
    (analyzeEndpoint hasKey (some (mimetype, originalname, size)) time modelText
        metaWrite).2.imageStored = false ∧
    (analyzeEndpoint hasKey (some (mimetype, originalname, size)) time modelText
        metaWrite).2.metaWritten = false := by
  have hf : fileFilter mimetype = false := by
    unfold fileFilter
    simpa using hm
  simp [analyzeEndpoint, hf]

/-- Witness for claim C5: a GIF upload is rejected and nothing is stored. -/
theorem bad_mime_rejected_no_write_witness :
    (analyzeEndpoint true (some ("image/gif", "anim.gif", 100)) 2 "\x7b\x7d"
        (Except.ok ())).1.success = false ∧
    (analyzeEndpoint true (some ("image/gif", "anim.gif", 100)) 2 "\x7b\x7d"
        (Except.ok ())).1.errorMsg = some badMimeErr ∧
    (analyzeEndpoint true (some ("image/gif", "anim.gif", 100)) 2 "\x7b\x7d"
        (Except.ok ())).2.imageStored = false ∧
    (analyzeEndpoint true (some ("image/gif", "anim.gif", 100)) 2 "\x7b\x7d"
        (Except.ok ())).2.metaWritten = false :=
  bad_mime_rejected_no_write true "image/gif" "anim.gif" 100 2 "\x7b\x7d" (Except.ok ())
    (by decide)

/-- Claim C6: an uploaded payload larger than the 10 MB limit is rejected
by the multer middleware, so the handler never runs and the external model

is never invoked. -/
theorem oversize_rejected_before_model (hasKey : Bool) (mimetype originalname : String)
    (size time : Nat) (modelText : String) (metaWrite : Except String Unit)
    (hs : maxFileSize < size) :
    (analyzeEndpoint hasKey (some (mimetype, originalname, size)) time modelText
        metaWrite).2.modelInvoked = false ∧
    (analyzeEndpoint hasKey (some (mimetype, originalname, size)) time modelText
        metaWrite).1.success = false := by
  by_cases hf : fileFilter mimetype = false
  · simp [analyzeEndpoint, hf]
  · rw [analyzeEndpoint]
    rw [if_neg hf, if_pos hs]
    exact ⟨rfl, rfl⟩

/-- Witness for claim C6: a payload one byte over the limit is rejected
without invoking the model. -/
theorem oversize_rejected_before_model_witness :
    (analyzeEndpoint true (some ("image/png", "big.png", 10485761)) 4 "\x7b\x7d"
        (Except.ok ())).2.modelInvoked = false ∧
    (analyzeEndpoint true (some ("image/png", "big.png", 10485761)) 4 "\x7b\x7d"
        (Except.ok ())).1.success = false :=
  oversize_rejected_before_model true "image/png" "big.png" 10485761 4 "\x7b\x7d"
    (Except.ok ()) (by decide)

/-- Claim C7: a save-report request whose document payload is missing or
does not begin with the PDF data-URL marker is rejected with the
InvalidDocument message and performs no storage write, whatever the
analysis and imageFilename fields hold — in both the local route and the
Netlify handler. -/
theorem save_report_rejects_non_pdf (pdfDataUrl baseName : Option String)
    (analysis : Option Js) (imageFilename : Option String) (time : Nat)
    (pdfBlobOk metaBlobOk : Bool)
    (h : ∀ s, pdfDataUrl = some s → strStartsWith s pdfMarker = false) :
    (saveReportRoute pdfDataUrl baseName analysis imageFilename time).1.status = 400 ∧
    (saveReportRoute pdfDataUrl baseName analysis imageFilename time).1.errorMsg =
      some "Invalid or missing PDF data" ∧
    (saveReportRoute pdfDataUrl baseName analysis imageFilename time).2.pdfKey = none ∧
    (saveReportRoute pdfDataUrl baseName analysis imageFilename time).2.metaKey = none ∧
    (netlifySaveReport "POST" pdfDataUrl baseName analysis imageFilename
        pdfBlobOk metaBlobOk time).1.status = 400 ∧
    (netlifySaveReport "POST" pdfDataUrl baseName analysis imageFilename
        pdfBlobOk metaBlobOk time).2.pdfKey = none ∧
    (netlifySaveReport "POST" pdfDataUrl baseName analysis imageFilename
        pdfBlobOk metaBlobOk time).2.metaKey = none := by
  cases pdfDataUrl with
  | none => simp [saveReportRoute, netlifySaveReport]
  | some u => simp [saveReportRoute, netlifySaveReport, h u rfl]

/-- Witness for claim C7: a plain-text data URL is rejected by both
handlers with no writes. -/
theorem save_report_rejects_non_pdf_witness :
    (saveReportRoute (some "data:text/plain;base64,AAAA") (some "r") none (some "i.jpg")
        9).1.status = 400 ∧
    (saveReportRoute (some "data:text/plain;base64,AAAA") (some "r") none (some "i.jpg")
        9).1.errorMsg = some "Invalid or missing PDF data" ∧
    (saveReportRoute (some "data:text/plain;base64,AAAA") (some "r") none (some "i.jpg")
        9).2.pdfKey = none ∧
    (saveReportRoute (some "data:text/plain;base64,AAAA") (some "r") none (some "i.jpg")
        9).2.metaKey = none ∧
    (netlifySaveReport "POST" (some "data:text/plain;base64,AAAA") (some "r") none
        (some "i.jpg") true true 9).1.status = 400 ∧
    (netlifySaveReport "POST" (some "data:text/plain;base64,AAAA") (some "r") none
        (some "i.jpg") true true 9).2.pdfKey = none ∧
    (netlifySaveReport "POST" (some "data:text/plain;base64,AAAA") (some "r") none
        (some "i.jpg") true true 9).2.metaKey = none :=
  save_report_rejects_non_pdf (some "data:text/plain;base64,AAAA") (some "r") none
    (some "i.jpg") 9 true true
    (fun s hs => by cases hs; decide)

lemma digitChar_safe (n : Nat) (h : n < 10) : isSafeChar (Nat.digitChar n) = true := by
  interval_cases n <;> decide

lemma toDigitsCore_safe (fuel : Nat) : ∀ (n : Nat) (acc : List Char),
    (∀ c ∈ acc, isSafeChar c = true) →
    ∀ c ∈ Nat.toDigitsCore 10 fuel n acc, isSafeChar c = true := by
  induction fuel with
  | zero =>
    intro n acc hacc c hc
    rw [Nat.toDigitsCore] at hc
    exact hacc c hc
  | succ f ih =>
    intro n acc hacc c hc
    rw [Nat.toDigitsCore] at hc
    have hd : ∀ c ∈ Nat.digitChar (n % 10) :: acc, isSafeChar c = true := by
      intro c hc2
      rcases List.mem_cons.mp hc2 with h | h
      · exact h ▸ digitChar_safe _ (Nat.mod_lt _ (by norm_num))
      · exact hacc c h
    by_cases h0 : n / 10 = 0
    · rw [if_pos h0] at hc
      exact hd c hc
    · rw [if_neg h0] at hc
      exact ih (n / 10) _ hd c hc

lemma repr_all_safe (n : Nat) : allSafeChars (Nat.repr n) = true := by
  unfold allSafeChars
  rw [show (Nat.repr n).data = Nat.toDigits 10 n from rfl]
  exact List.all_eq_true.mpr
    (fun c hc => toDigitsCore_safe (n + 1) n [] (by intro c hc; cases hc) c hc)

lemma allSafeChars_append (s t : String) :
    allSafeChars (s ++ t) = (allSafeChars s && allSafeChars t) := by
  unfold allSafeChars
  rw [strData_append, List.all_append]

lemma sanitize_id_of_safe (s : String) (h : allSafeChars s = true) : sanitize s = s := by
  unfold sanitize
  have key : ∀ (l : List Char), (∀ c ∈ l, isSafeChar c = true) →
      l.map (fun c => if isSafeChar c then c else '_') = l := by
    intro l
    induction l with
    | nil => intro _; rfl
    | cons a as ih =>
      intro hl
      rw [List.map_cons, if_pos (hl a (List.mem_cons_self a as)),
        ih (fun c hc => hl c (List.mem_cons_of_mem a hc))]
  rw [key s.data (List.all_eq_true.mp h)]

lemma allSafeChars_sanitize (s : String) : allSafeChars (sanitize s) = true := by
  unfold allSafeChars sanitize
  rw [show (String.mk (s.data.map (fun c => if isSafeChar c then c else '_'))).data =
    s.data.map (fun c => if isSafeChar c then c else '_') from rfl, List.all_map]
  refine List.all_eq_true.mpr (fun c hc => ?_)
  by_cases h : isSafeChar c = true
  · simp [h]
  · simp only [Function.comp_apply]
    rw [if_neg (by simpa using h)]
    decide

/-- Claim C8 (amended): every document persisted by a save-report
operation — the local Express route and the Netlify handler alike — is
stored in the reports namespace under a key base.pdf whose base contains
only characters from the safe class; a caller-supplied non-empty base name
is used with every unsafe character replaced by an underscore, and when
the base name is missing — or empty, which both handlers treat like
missing — the generated base is analysis_ followed by the millisecond
timestamp.  In the Netlify handler the document is persisted exactly when
its blob write succeeds, and then under the same key shape.  (The original
claim fails for a supplied empty base name, which is falsy in JavaScript
and therefore replaced by the generated name rather than sanitized.) -/
theorem save_report_key_form (u b : String) (analysis : Option Js) (img : Option String)
    (time : Nat) (pdfBlobOk metaBlobOk : Bool)
    (hu : strStartsWith u pdfMarker = true) (hb : b ≠ "") :
    (saveReportRoute (some u) (some b) analysis img time).2.pdfKey =
      some ("reports/" ++ sanitize b ++ ".pdf") ∧
    allSafeChars (sanitize b) = true ∧
    (saveReportRoute (some u) none analysis img time).2.pdfKey =
      some ("reports/" ++ ("analysis_" ++ Nat.repr time) ++ ".pdf") ∧
    allSafeChars ("analysis_" ++ Nat.repr time) = true ∧
    (netlifySaveReport "POST" (some u) (some b) analysis img pdfBlobOk metaBlobOk
        time).2.pdfKey =
      (if pdfBlobOk then some ("reports/" ++ sanitize b ++ ".pdf") else none) ∧
    (netlifySaveReport "POST" (some u) none analysis img pdfBlobOk metaBlobOk
        time).2.pdfKey =
      (if pdfBlobOk then some ("reports/" ++ ("analysis_" ++ Nat.repr time) ++ ".pdf")
       else none) := by
  have hsafe : allSafeChars ("analysis_" ++ Nat.repr time) = true := by
    rw [allSafeChars_append, repr_all_safe, Bool.and_true]
    decide
  have hdef : sanitize ("analysis_" ++ Nat.repr time) = "analysis_" ++ Nat.repr time :=
    sanitize_id_of_safe _ hsafe
  refine ⟨?_, allSafeChars_sanitize b, ?_, hsafe, ?_, ?_⟩
  · simp [saveReportRoute, hu, effectiveBase, hb]
  · simp [saveReportRoute, hu, effectiveBase, hdef]
  · cases pdfBlobOk <;> simp [netlifySaveReport, hu, effectiveBase, hb]
  · cases pdfBlobOk <;> simp [netlifySaveReport, hu, effectiveBase, hdef]

/-- Witness for claim C8: a PDF payload saved under the base name
"my report!" (sanitized) and with no base name (generated), on the local
route and on the Netlify handler with a succeeding blob store. -/
theorem save_report_key_form_witness :
    (saveReportRoute (some "data:application/pdf;base64,AAAA") (some "my report!") none
        none 5).2.pdfKey = some ("reports/" ++ sanitize "my report!" ++ ".pdf") ∧
    allSafeChars (sanitize "my report!") = true ∧
    (saveReportRoute (some "data:application/pdf;base64,AAAA") none none
        none 5).2.pdfKey = some ("reports/" ++ ("analysis_" ++ Nat.repr 5) ++ ".pdf") ∧
    allSafeChars ("analysis_" ++ Nat.repr 5) = true ∧
    (netlifySaveReport "POST" (some "data:application/pdf;base64,AAAA") (some "my report!")
        none none true true 5).2.pdfKey =
      (if true then some ("reports/" ++ sanitize "my report!" ++ ".pdf") else none) ∧
    (netlifySaveReport "POST" (some "data:application/pdf;base64,AAAA") none
        none none true true 5).2.pdfKey =
      (if true then some ("reports/" ++ ("analysis_" ++ Nat.repr 5) ++ ".pdf")
       else none) :=
  save_report_key_form "data:application/pdf;base64,AAAA" "my report!" none none 5
    true true (by decide) (by decide)

/-- Counterexample for claim C8 as stated: a caller-supplied empty base
name is falsy, so both handlers store the document under the generated
analysis_ base, not the sanitized supplied name, which would give the key
reports/.pdf. -/
theorem save_report_empty_base_cex :
    (saveReportRoute (some "data:application/pdf;base64,AAAA") (some "") none none
        5).2.pdfKey = some "reports/analysis_5.pdf" ∧
    (netlifySaveReport "POST" (some "data:application/pdf;base64,AAAA") (some "") none
        none true true 5).2.pdfKey = some "reports/analysis_5.pdf" ∧
    sanitize "" = "" ∧
    ("reports/analysis_5.pdf" : String) ≠ "reports/" ++ sanitize "" ++ ".pdf" :=
  ⟨rfl, rfl, rfl, by decide⟩

/-- Claim C9: for positive source dimensions, the report renderer scales
both dimensions by the single factor min of maxWidth over width and
maxHeight over height, so the rendered image fits in the bounding box and
the rendered aspect ratio equals the source aspect ratio (exact
arithmetic model of src/public/script.js lines 191-197). -/
theorem image_scale_fits_preserves_ratio (w h : ℚ) (hw : 0 < w) (hh : 0 < h) :
    renderedW w h ≤ imgMaxW ∧ renderedH w h ≤ imgMaxH ∧
    renderedW w h / renderedH w h = w / h := by
  have hW : (0 : ℚ) < imgMaxW := by norm_num [imgMaxW, pageMargin]
  have hH : (0 : ℚ) < imgMaxH := by norm_num [imgMaxH]
  have hs : 0 < imgScale w h := lt_min (div_pos hW hw) (div_pos hH hh)
  refine ⟨?_, ?_, ?_⟩
  · calc renderedW w h = w * imgScale w h := rfl
      _ ≤ w * (imgMaxW / w) := mul_le_mul_of_nonneg_left (min_le_left _ _) hw.le
      _ = imgMaxW := by field_simp
  · calc renderedH w h = h * imgScale w h := rfl
      _ ≤ h * (imgMaxH / h) := mul_le_mul_of_nonneg_left (min_le_right _ _) hh.le
      _ = imgMaxH := by field_simp
  · show w * imgScale w h / (h * imgScale w h) = w / h
    rw [mul_div_mul_right _ _ (ne_of_gt hs)]

/-- Witness for claim C9: a 1000 by 400 source image. -/
theorem image_scale_fits_preserves_ratio_witness :
    renderedW 1000 400 ≤ imgMaxW ∧ renderedH 1000 400 ≤ imgMaxH ∧
    renderedW 1000 400 / renderedH 1000 400 = 1000 / 400 :=
  image_scale_fits_preserves_ratio 1000 400 (by norm_num) (by norm_num)

/-- Claim C10: on the Netlify deployment, a save-report request with a
valid PDF payload receives the 200 success response with a retrieval
path even when the blob write of the document fails: both writes sit in a
best-effort try block, so nothing is persisted yet the caller sees
success. -/
theorem netlify_success_despite_blob_failure (u : String) (baseName : Option String)
    (analysis : Option Js) (img : Option String) (metaBlobOk : Bool) (time : Nat)
    (hu : strStartsWith u pdfMarker = true) :
    (netlifySaveReport "POST" (some u) baseName analysis img false metaBlobOk
        time).1.status = 200 ∧
    (netlifySaveReport "POST" (some u) baseName analysis img false metaBlobOk
        time).1.success = true ∧
    (netlifySaveReport "POST" (some u) baseName analysis img false metaBlobOk
        time).1.reportUrl =
      some ("/.netlify/blobs/" ++ ("reports/" ++ sanitize (effectiveBase baseName time) ++
        ".pdf")) ∧
    (netlifySaveReport "POST" (some u) baseName analysis img false metaBlobOk
        time).2.pdfKey = none ∧
    (netlifySaveReport "POST" (some u) baseName analysis img false metaBlobOk
        time).2.metaKey = none := by
  simp [netlifySaveReport, hu]

/-- Witness for claim C10: a valid PDF payload with a failing blob store
still yields the 200 success response and no persisted keys. -/
theorem netlify_success_despite_blob_failure_witness :
    (netlifySaveReport "POST" (some "data:application/pdf;base64,AAAA") (some "rep") none
        (some "img.png") false false 6).1.status = 200 ∧
    (netlifySaveReport "POST" (some "data:application/pdf;base64,AAAA") (some "rep") none
        (some "img.png") false false 6).1.success = true ∧
    (netlifySaveReport "POST" (some "data:application/pdf;base64,AAAA") (some "rep") none
        (some "img.png") false false 6).1.reportUrl =
      some ("/.netlify/blobs/" ++ ("reports/" ++ sanitize (effectiveBase (some "rep") 6) ++
        ".pdf")) ∧
    (netlifySaveReport "POST" (some "data:application/pdf;base64,AAAA") (some "rep") none
        (some "img.png") false false 6).2.pdfKey = none ∧
    (netlifySaveReport "POST" (some "data:application/pdf;base64,AAAA") (some "rep") none
        (some "img.png") false false 6).2.metaKey = none :=
  netlify_success_despite_blob_failure "data:application/pdf;base64,AAAA" (some "rep") none
    (some "img.png") false 6 (by decide)
